import Mathlib

/-!
# SolarScan — formal model of the deterministic recommendation engine

Shallow embedding of the Pakistan-pricing bill-analysis handler
(`analyze-bill-with-pakistan-pricing.js`): the input normalizer
(`safeNum` chains over the LLM-parsed fields and the caller override)
and the recommendation calculator (system sizing, cost breakdown,
savings, payback, CO2, percent offset).

Finite JavaScript numbers are modelled as exact rationals `ℚ`, and the
calculator runs over `JsNumber` (a rational or `NaN`) with JS semantics:
arithmetic propagates `NaN`, comparisons with `NaN` are false, `Math.round`
and `Number(x.toFixed(f))` follow the JS tie rule (nearest, ties towards the
larger integer, i.e. `⌊x + 1/2⌋`) and map `NaN` to `NaN`.  A JavaScript
value that may be a number, `NaN`, or any non-number (`null`, `undefined`,
string, object) is modelled by `JVal`.

The production-table read `prodByCityKwhPerKwPerMonth[key]` is a JS bracket
property read and therefore consults the prototype chain: the all-lowercase
keys `"constructor"` and `"__proto__"` (the only `Object.prototype` member
names that `toLowerCase` can produce) resolve to truthy non-number objects,
so the `||` fallback does not fire and the value `NaN`-poisons the
computation downstream.  `String.prototype.toLowerCase` is modelled per
character; beyond ASCII `A`-`Z` the only Unicode character whose lowercase
is a plain ASCII letter is the Kelvin sign U+212A (to `k`), which is
included; other characters are left unchanged (their JS lowercases are
non-ASCII and can never hit the table's plain-ASCII keys).

A division whose divisor is the number `0` yields an infinity in JS; the
model collapses it to `NaN`.  The totality theorem proves (via the
`divOpt`/`jsDivOpt`-checked pipeline) that no executed division ever has
the number `0` as divisor, so that case is unreachable.
-/

namespace SolarScan

/-- A JavaScript value as discriminated by `safeNum`:
a finite number, `NaN`, or anything that is not a number
(`null`, `undefined`, strings, objects, booleans). -/
inductive JVal where
  | num (q : ℚ)
  | nan
  | nonNum
deriving DecidableEq, Repr

/-- `safeNum(v) = typeof v === 'number' && !Number.isNaN(v) ? v : null`. -/
def safeNum : JVal → Option ℚ
  | JVal.num q => some q
  | _ => none

/-- `Math.round`: nearest integer, ties towards positive infinity. -/
def jsRound (x : ℚ) : ℤ := ⌊x + 1/2⌋

/-- `moneyRound(x) = Math.round(x)` (PKR rounding), on a finite number. -/
def moneyRound (x : ℚ) : ℤ := jsRound x

/-- `Number(x.toFixed(f))` on a finite number: round to `f` decimal places,
ties towards the larger integer numerator. -/
def toFixed (f : ℕ) (x : ℚ) : ℚ := (jsRound (x * 10 ^ f) : ℚ) / 10 ^ f

/-- Checked rational division: `none` exactly when the divisor is zero.
Used by the instrumented variant of the pipeline to certify that no
division by zero ever happens. -/
def divOpt (a b : ℚ) : Option ℚ := if b = 0 then none else some (a / b)

/-! ## JS numbers with `NaN` -/

/-- A JS number reachable in the calculator: a finite rational or `NaN`. -/
inductive JsNumber where
  | num (q : ℚ)
  | nan
deriving DecidableEq, Repr

/-- JS `+` (both operands already numbers): `NaN` propagates. -/
def jsAdd : JsNumber → JsNumber → JsNumber
  | JsNumber.num a, JsNumber.num b => JsNumber.num (a + b)
  | _, _ => JsNumber.nan

/-- JS `-` (both operands already numbers): `NaN` propagates. -/
def jsSub : JsNumber → JsNumber → JsNumber
  | JsNumber.num a, JsNumber.num b => JsNumber.num (a - b)
  | _, _ => JsNumber.nan

/-- JS `*` (both operands already numbers): `NaN` propagates. -/
def jsMul : JsNumber → JsNumber → JsNumber
  | JsNumber.num a, JsNumber.num b => JsNumber.num (a * b)
  | _, _ => JsNumber.nan

/-- JS `/`: `NaN` propagates; a zero divisor is collapsed to `NaN`
(unreachable here — the checked pipeline proves every executed division
has a nonzero numeric divisor). -/
def jsDiv : JsNumber → JsNumber → JsNumber
  | JsNumber.num a, JsNumber.num b => if b = 0 then JsNumber.nan else JsNumber.num (a / b)
  | _, _ => JsNumber.nan

/-- `Math.min`: `NaN` if either argument is `NaN`. -/
def jsMin : JsNumber → JsNumber → JsNumber
  | JsNumber.num a, JsNumber.num b => JsNumber.num (min a b)
  | _, _ => JsNumber.nan

/-- `Math.abs` on a JS number. -/
def jsAbs : JsNumber → JsNumber
  | JsNumber.num a => JsNumber.num |a|
  | JsNumber.nan => JsNumber.nan

/-- JS `<`: any comparison involving `NaN` is false. -/
def jsLt : JsNumber → JsNumber → Bool
  | JsNumber.num a, JsNumber.num b => decide (a < b)
  | _, _ => false

/-- JS `<=`: any comparison involving `NaN` is false. -/
def jsLe : JsNumber → JsNumber → Bool
  | JsNumber.num a, JsNumber.num b => decide (a ≤ b)
  | _, _ => false

/-- `Math.round` on a JS number: `Math.round(NaN) = NaN`. -/
def jsRoundN : JsNumber → JsNumber
  | JsNumber.num q => JsNumber.num ((moneyRound q : ℤ) : ℚ)
  | JsNumber.nan => JsNumber.nan

/-- `Number(x.toFixed(f))` on a JS number: `Number(NaN.toFixed(f)) = NaN`. -/
def jsToFixedN (f : ℕ) : JsNumber → JsNumber
  | JsNumber.num q => JsNumber.num (toFixed f q)
  | JsNumber.nan => JsNumber.nan

/-- Checked JS division: `none` exactly when the divisor is the number `0`. -/
def jsDivOpt (a b : JsNumber) : Option JsNumber :=
  if b = JsNumber.num 0 then none else some (jsDiv a b)

/-! ## Static market data (`PK_DEFAULTS`) -/

/-- `PK_DEFAULTS.costPerKw` (PKR per installed kW). -/
def costPerKw : ℚ := 180000

/-- `PK_DEFAULTS.emissionKgPerKwh` (kg CO2 per kWh). -/
def emissionKgPerKwh : ℚ := 45 / 100

/-- `PK_DEFAULTS.prodByCityKwhPerKwPerMonth.default`. -/
def prodDefault : ℚ := 150

/-- The own keys of the object literal `PK_DEFAULTS.prodByCityKwhPerKwPerMonth`. -/
def prodLookup (key : String) : Option ℚ :=
  if key = "karachi" then some 160
  else if key = "lahore" then some 150
  else if key = "islamabad" then some 150
  else if key = "peshawar" then some 155
  else if key = "default" then some 150
  else none

/-- The Kelvin sign U+212A, the only Unicode character beyond `A`-`Z` whose
ECMAScript lowercase is a plain ASCII letter (`k`). -/
def kelvinSign : Char := Char.ofNat 0x212A

/-- One character of `String.prototype.toLowerCase`: ASCII `A`-`Z` and the
Kelvin sign lower to ASCII; every other character either is unchanged or
lowers to a non-ASCII character that cannot occur in the table's keys, so it
is left unchanged. -/
def jsCharToLower (c : Char) : Char :=
  if c = kelvinSign then 'k' else c.toLower

/-- `location.toLowerCase()` (character-by-character, structurally recursive
so that it evaluates). -/
def jsToLower (s : String) : String := ⟨s.data.map jsCharToLower⟩

/-- The result of the bracket read `prodByCityKwhPerKwPerMonth[key]` after
the `||` fallback: a number, or a truthy inherited `Object.prototype`
member (for the keys `"constructor"` and `"__proto__"`). -/
inductive ProdValue where
  | num (q : ℚ)
  | protoObject
deriving DecidableEq, Repr

/-- `prodByCityKwhPerKwPerMonth[key] || prodByCityKwhPerKwPerMonth.default`:
an own entry is returned if truthy (all table values are nonzero); a missing
own key falls through to the prototype chain, where the all-lowercase keys
`"constructor"` and `"__proto__"` hit truthy `Object.prototype` members
(`Object` and `Object.prototype`); only `undefined` reads fall back through
`||` to the default entry. -/
def prodEntryToValue (ownEntry : Option ℚ) (key : String) : ProdValue :=
  match ownEntry with
  | some v => if v = 0 then ProdValue.num prodDefault else ProdValue.num v
  | none =>
    if key = "constructor" ∨ key = "__proto__" then ProdValue.protoObject
    else ProdValue.num prodDefault

/-- `pickProductionForLocation`: `!location` (null/undefined/empty string)
falls back to the default; otherwise the bracket read of
`location.toLowerCase()` with the `||` fallback. -/
def pickProductionForLocation (location : Option String) : ProdValue :=
  match location with
  | none => ProdValue.num prodDefault
  | some s =>
    if s = "" then ProdValue.num prodDefault
    else prodEntryToValue (prodLookup (jsToLower s)) (jsToLower s)

/-- `ToNumber` coercion applied by JS arithmetic to the looked-up value:
a number is itself; the inherited prototype objects coerce to `NaN`. -/
def toNumber : ProdValue → JsNumber
  | ProdValue.num q => JsNumber.num q
  | ProdValue.protoObject => JsNumber.nan

/-! ## Input normalizer -/

/-- The `parsedFields` object extracted from the LLM reply. -/
structure ParsedFields where
  unitsKWh : JVal
  totalCost : JVal
  costPerUnit : JVal
  location : Option String
deriving DecidableEq, Repr

/-- The caller-supplied `fields` override object. -/
structure FieldsOverride where
  unitsKWh : JVal
  totalCost : JVal
  costPerUnit : JVal
deriving DecidableEq, Repr

/-- `unitsKWh = safeNum(pf.unitsKWh) ?? (fields && safeNum(fields.unitsKWh)) ?? null`. -/
def canonUnits (pf : ParsedFields) (fields : Option FieldsOverride) : Option ℚ :=
  match safeNum pf.unitsKWh with
  | some q => some q
  | none =>
    match fields with
    | some f => safeNum f.unitsKWh
    | none => none

/-- `totalCost = safeNum(pf.totalCost) ?? (fields && safeNum(fields.totalCost)) ?? null`. -/
def canonTotalCost (pf : ParsedFields) (fields : Option FieldsOverride) : Option ℚ :=
  match safeNum pf.totalCost with
  | some q => some q
  | none =>
    match fields with
    | some f => safeNum f.totalCost
    | none => none

/-- `costPerUnit = safeNum(pf.costPerUnit) ?? (totalCost && unitsKWh ? totalCost / unitsKWh : null)`.
Note: the caller override `fields.costPerUnit` is not consulted by the code. -/
def canonCostPerUnit (pf : ParsedFields) (fields : Option FieldsOverride) : Option ℚ :=
  match safeNum pf.costPerUnit with
  | some q => some q
  | none =>
    match canonTotalCost pf fields, canonUnits pf fields with
    | some t, some u => if t ≠ 0 ∧ u ≠ 0 then some (t / u) else none
    | _, _ => none

/-- JS truthiness filter on a nullable string (the empty string is falsy). -/
def jsTruthyStr : Option String → Option String
  | some s => if s = "" then none else some s
  | none => none

/-- `loc = (pf.location || city || null)`. -/
def jsLoc (pfLoc city : Option String) : Option String :=
  match jsTruthyStr pfLoc with
  | some s => some s
  | none => jsTruthyStr city

/-! ## Recommendation calculator -/

/-- The three-way cost breakdown of the recommendation. -/
structure CostBreakdown where
  panels : JsNumber
  inverterAndBalance : JsNumber
  installation : JsNumber
deriving DecidableEq, Repr

/-- The `recommendation` object of the handler's response. -/
structure Recommendation where
  suggestedSystemKw : Option JsNumber
  estMonthlyProductionKwh : Option JsNumber
  estMonthlySavings : Option JsNumber
  approxInstallCost : Option JsNumber
  costBreakdown : Option CostBreakdown
  paybackYears : Option JsNumber
  co2ReductionTonsPerYear : Option JsNumber
  percentOffset : Option JsNumber
  notes : List String
deriving DecidableEq, Repr

/-- The parts of the handler's `out` object that the deterministic core produces. -/
structure HandlerResult where
  recommendation : Recommendation
  assumptions : List String
deriving DecidableEq, Repr

/-- The note pushed to `recommendation.notes` when the budget caps the system size. -/
def budgetInsufficientNote : String :=
  "Budget insufficient for full offset — suggesting partial system."

/-- The assumption pushed when consumption or unit cost is missing. -/
def missingNote : String :=
  "Missing unitsKWh or costPerUnit — cannot compute solar recommendation."

/-- The initial all-null recommendation object. -/
def degradedRecommendation : Recommendation :=
  { suggestedSystemKw := none
    estMonthlyProductionKwh := none
    estMonthlySavings := none
    approxInstallCost := none
    costBreakdown := none
    paybackYears := none
    co2ReductionTonsPerYear := none
    percentOffset := none
    notes := [] }

/-- The degraded (`else`) branch: recommendation untouched,
explanatory assumption appended. -/
def degradedResult (a0 : List String) : HandlerResult :=
  { recommendation := degradedRecommendation
    assumptions := a0 ++ [missingNote] }

/-- `budgetNum = typeof budget === 'number' && budget > 0 ? budget : null`
(`NaN > 0` is false, so `NaN` also yields `null`). -/
def budgetNumOf : JVal → Option ℚ
  | JVal.num b => if 0 < b then some b else none
  | _ => none

/-- The final suggested system size: `requiredKw`, unless a positive budget
caps it below `requiredKw` (JS `<`: false when `requiredKw` is `NaN`), in
which case `max(0.5, budget / costPerKw)`. -/
def finalKwCalc (requiredKw : JsNumber) (budget : JVal) : JsNumber :=
  match budgetNumOf budget with
  | some b =>
    if jsLt (JsNumber.num (b / costPerKw)) requiredKw then
      JsNumber.num (max (1/2) (b / costPerKw))
    else requiredKw
  | none => requiredKw

/-- The notes produced by the budget branch. -/
def budgetNotes (requiredKw : JsNumber) (budget : JVal) : List String :=
  match budgetNumOf budget with
  | some b =>
    if jsLt (JsNumber.num (b / costPerKw)) requiredKw then [budgetInsufficientNote] else []
  | none => []

/-- `rawHardware = finalKw * costPerKw`. -/
def rawHardwareOf (finalKw : JsNumber) : JsNumber := jsMul finalKw (JsNumber.num costPerKw)

/-- `approxPanels = moneyRound(rawHardware * 0.60)`. -/
def panelsOf (finalKw : JsNumber) : JsNumber :=
  jsRoundN (jsMul (rawHardwareOf finalKw) (JsNumber.num (60/100)))

/-- `approxInverter = moneyRound(rawHardware * 0.25)`. -/
def inverterOf (finalKw : JsNumber) : JsNumber :=
  jsRoundN (jsMul (rawHardwareOf finalKw) (JsNumber.num (25/100)))

/-- `approxInstall = moneyRound(rawHardware * 0.15)`. -/
def installationOf (finalKw : JsNumber) : JsNumber :=
  jsRoundN (jsMul (rawHardwareOf finalKw) (JsNumber.num (15/100)))

/-- `totalInstallCost = moneyRound(approxPanels + approxInverter + approxInstall)`. -/
def totalInstallOf (finalKw : JsNumber) : JsNumber :=
  jsRoundN (jsAdd (jsAdd (panelsOf finalKw) (inverterOf finalKw)) (installationOf finalKw))

/-- `estMonthlySavings = moneyRound(Math.min(estMonthlyProduction, unitsKWh) * costPerUnit)`. -/
def savingsOf (estProd : JsNumber) (u cpu : ℚ) : JsNumber :=
  jsRoundN (jsMul (jsMin estProd (JsNumber.num u)) (JsNumber.num cpu))

/-- Lines 119-152 of the handler, as a function of the already decided
`(finalKw, notes)` pair: install cost and breakdown, production, savings,
payback, CO2 and percent offset, assembled into the response. -/
def plainTail (uv cv : ℚ) (loc : Option String) (a0 : List String)
    (fkNotes : JsNumber × List String) : HandlerResult :=
  let finalKw := fkNotes.1
  let prodN := toNumber (pickProductionForLocation loc)
  let estProd := jsMul finalKw prodN
  let estSavings := savingsOf estProd uv cv
  { recommendation :=
    { suggestedSystemKw := some (jsToFixedN 2 finalKw)
      estMonthlyProductionKwh := some (jsToFixedN 1 estProd)
      estMonthlySavings := some estSavings
      approxInstallCost := some (totalInstallOf finalKw)
      costBreakdown := some
        { panels := panelsOf finalKw
          inverterAndBalance := inverterOf finalKw
          installation := installationOf finalKw }
      paybackYears :=
        if jsLt (JsNumber.num 0) estSavings then
          some (jsToFixedN 2 (jsDiv (totalInstallOf finalKw) (jsMul estSavings (JsNumber.num 12))))
        else none
      co2ReductionTonsPerYear :=
        some (jsToFixedN 3 (jsDiv (jsMul (jsMul estProd (JsNumber.num 12))
          (JsNumber.num emissionKgPerKwh)) (JsNumber.num 1000)))
      percentOffset :=
        some (jsToFixedN 1 (jsMul (jsDiv estProd (JsNumber.num uv)) (JsNumber.num 100)))
      notes := fkNotes.2 }
    assumptions := a0 }

/-- The computed (`then`) branch of the recommendation, for truthy
`unitsKWh` and `costPerUnit`: decide the system size from the budget,
then run the pricing tail. -/
def computeBranch (uv cv : ℚ) (loc : Option String) (budget : JVal)
    (a0 : List String) : HandlerResult :=
  plainTail uv cv loc a0
    (finalKwCalc (jsDiv (JsNumber.num uv) (toNumber (pickProductionForLocation loc))) budget,
     budgetNotes (jsDiv (JsNumber.num uv) (toNumber (pickProductionForLocation loc))) budget)

/-- The recommendation calculator: `if (unitsKWh && costPerUnit) { ... } else { ... }`.
JS truthiness: `null` and `0` are falsy, every other number (including
negative ones) is truthy. -/
def calcRecommendation (u cpu : Option ℚ) (loc : Option String) (budget : JVal)
    (a0 : List String) : HandlerResult :=
  match u, cpu with
  | some uv, some cv =>
    if uv = 0 ∨ cv = 0 then degradedResult a0
    else computeBranch uv cv loc budget a0
  | _, _ => degradedResult a0

/-- The deterministic core of the handler: normalize the parsed fields and
the caller override, then compute the recommendation. -/
def normalizeAndCompute (pf : ParsedFields) (fields : Option FieldsOverride)
    (budget : JVal) (city : Option String) (a0 : List String) : HandlerResult :=
  calcRecommendation (canonUnits pf fields) (canonCostPerUnit pf fields)
    (jsLoc pf.location city) budget a0

/-! ## Division-checked variant

The same pipeline with every division routed through `divOpt`/`jsDivOpt`,
which fail (`none`) on the divisor `0`.  Proving the variant equal to `some`
of the plain pipeline certifies that no executed division ever has a zero
divisor (a `NaN` divisor is not a zero division — it yields `NaN`, not an
error, in JS). -/

/-- `canonCostPerUnit` with the derivation division checked. -/
def canonCostPerUnitChecked (pf : ParsedFields) (fields : Option FieldsOverride) :
    Option (Option ℚ) :=
  match safeNum pf.costPerUnit with
  | some q => some (some q)
  | none =>
    match canonTotalCost pf fields, canonUnits pf fields with
    | some t, some u => if t ≠ 0 ∧ u ≠ 0 then (divOpt t u).map some else some none
    | _, _ => some none

/-- The pricing tail with the payback, CO2 and percent-offset divisions checked. -/
def checkedTail (uv cv : ℚ) (loc : Option String) (a0 : List String)
    (fkNotes : JsNumber × List String) : Option HandlerResult :=
  (if jsLt (JsNumber.num 0)
      (savingsOf (jsMul fkNotes.1 (toNumber (pickProductionForLocation loc))) uv cv) then
      (jsDivOpt (totalInstallOf fkNotes.1)
          (jsMul (savingsOf (jsMul fkNotes.1 (toNumber (pickProductionForLocation loc))) uv cv)
            (JsNumber.num 12))).map
        fun q => some (jsToFixedN 2 q)
    else some none).bind fun payback =>
  (jsDivOpt (jsMul (jsMul (jsMul fkNotes.1 (toNumber (pickProductionForLocation loc)))
      (JsNumber.num 12)) (JsNumber.num emissionKgPerKwh)) (JsNumber.num 1000)).bind fun co2q =>
  (jsDivOpt (jsMul fkNotes.1 (toNumber (pickProductionForLocation loc)))
      (JsNumber.num uv)).bind fun poq =>
  some
    { recommendation :=
        { suggestedSystemKw := some (jsToFixedN 2 fkNotes.1)
          estMonthlyProductionKwh :=
            some (jsToFixedN 1 (jsMul fkNotes.1 (toNumber (pickProductionForLocation loc))))
          estMonthlySavings :=
            some (savingsOf (jsMul fkNotes.1 (toNumber (pickProductionForLocation loc))) uv cv)
          approxInstallCost := some (totalInstallOf fkNotes.1)
          costBreakdown := some
            { panels := panelsOf fkNotes.1
              inverterAndBalance := inverterOf fkNotes.1
              installation := installationOf fkNotes.1 }
          paybackYears := payback
          co2ReductionTonsPerYear := some (jsToFixedN 3 co2q)
          percentOffset := some (jsToFixedN 1 (jsMul poq (JsNumber.num 100)))
          notes := fkNotes.2 }
      assumptions := a0 }

/-- `calcRecommendation` with every division checked. -/
def calcRecommendationChecked (u cpu : Option ℚ) (loc : Option String) (budget : JVal)
    (a0 : List String) : Option HandlerResult :=
  match u, cpu with
  | some uv, some cv =>
    if uv = 0 ∨ cv = 0 then some (degradedResult a0)
    else
      (jsDivOpt (JsNumber.num uv) (toNumber (pickProductionForLocation loc))).bind
        fun requiredKw =>
      (match budgetNumOf budget with
        | some b => (divOpt b costPerKw).map fun mkb =>
            if jsLt (JsNumber.num mkb) requiredKw then
              (JsNumber.num (max (1/2) mkb), [budgetInsufficientNote])
            else (requiredKw, ([] : List String))
        | none => some (requiredKw, ([] : List String))).bind fun fkNotes =>
      checkedTail uv cv loc a0 fkNotes
  | _, _ => some (degradedResult a0)

/-- `normalizeAndCompute` with every division checked. -/
def normalizeAndComputeChecked (pf : ParsedFields) (fields : Option FieldsOverride)
    (budget : JVal) (city : Option String) (a0 : List String) : Option HandlerResult :=
  (canonCostPerUnitChecked pf fields).bind fun cpu =>
    calcRecommendationChecked (canonUnits pf fields) cpu (jsLoc pf.location city) budget a0

/-! ## Helper lemmas -/

lemma prodLookup_pos (key : String) (v : ℚ) (h : prodLookup key = some v) : 0 < v := by
  unfold prodLookup at h
  split_ifs at h <;> simp_all <;> norm_num [← h]

/-- A numeric lookup result is always positive. -/
lemma pickProduction_num_pos (loc : Option String) (q : ℚ)
    (h : pickProductionForLocation loc = ProdValue.num q) : 0 < q := by
  have hd : (0 : ℚ) < prodDefault := by norm_num [prodDefault]
  cases loc with
  | none =>
    rw [show pickProductionForLocation none = ProdValue.num prodDefault from rfl,
      ProdValue.num.injEq] at h
    exact h ▸ hd
  | some s =>
    by_cases hs : s = ""
    · subst hs
      rw [show pickProductionForLocation (some "") = ProdValue.num prodDefault from rfl,
        ProdValue.num.injEq] at h
      exact h ▸ hd
    · simp only [pickProductionForLocation, hs, ite_false, if_false] at h
      cases hL : prodLookup (jsToLower s) with
      | some v =>
        rw [hL] at h
        simp only [prodEntryToValue] at h
        have hv := prodLookup_pos _ _ hL
        by_cases hv0 : v = 0
        · rw [if_pos hv0, ProdValue.num.injEq] at h
          exact h ▸ hd
        · rw [if_neg hv0, ProdValue.num.injEq] at h
          exact h ▸ hv
      | none =>
        rw [hL] at h
        simp only [prodEntryToValue] at h
        by_cases hp : jsToLower s = "constructor" ∨ jsToLower s = "__proto__"
        · rw [if_pos hp] at h
          exact absurd h (by simp)
        · rw [if_neg hp, ProdValue.num.injEq] at h
          exact h ▸ hd

/-- The coerced lookup value is never the number `0` (it is a positive
number or `NaN`). -/
lemma toNumber_pick_ne_zero (loc : Option String) :
    toNumber (pickProductionForLocation loc) ≠ JsNumber.num 0 := by
  cases hp : pickProductionForLocation loc with
  | num q =>
    have hq := pickProduction_num_pos loc q hp
    simp [toNumber, hq.ne']
  | protoObject => simp [toNumber]

lemma jsRound_le (x : ℚ) : ((jsRound x : ℤ) : ℚ) ≤ x + 1/2 := by
  simpa [jsRound] using Int.floor_le (x + 1/2)

lemma lt_jsRound (x : ℚ) : x - 1/2 < ((jsRound x : ℤ) : ℚ) := by
  have h := Int.sub_one_lt_floor (x + 1/2)
  simp only [jsRound]
  linarith

lemma jsRound_mono {x y : ℚ} (h : x ≤ y) : jsRound x ≤ jsRound y :=
  Int.floor_le_floor (by linarith)

lemma jsRound_intCast (n : ℤ) : jsRound (n : ℚ) = n := by
  rw [jsRound, Int.floor_int_add]
  norm_num

/-- A positive JS comparison against `0` exhibits a positive number. -/
lemma jsLt_zero_num {x : JsNumber} (h : jsLt (JsNumber.num 0) x = true) :
    ∃ s : ℚ, x = JsNumber.num s ∧ 0 < s := by
  cases x with
  | nan => simp [jsLt] at h
  | num s => exact ⟨s, rfl, by simpa [jsLt] using h⟩

/-- If the final size is a number, so is every branch of `finalKwCalc`. -/
lemma finalKwCalc_num (r : ℚ) (budget : JVal) :
    ∃ fk : ℚ, finalKwCalc (JsNumber.num r) budget = JsNumber.num fk := by
  unfold finalKwCalc
  cases budgetNumOf budget with
  | none => exact ⟨r, rfl⟩
  | some b =>
    by_cases h : jsLt (JsNumber.num (b / costPerKw)) (JsNumber.num r) = true
    · exact ⟨max (1/2) (b / costPerKw), by simp [h]⟩
    · exact ⟨r, by simp [h]⟩

/-- Rounding a sum of already rounded components changes nothing
(`NaN` stays `NaN`; integers stay themselves). -/
lemma totalInstall_eq_sum (fk : JsNumber) :
    totalInstallOf fk = jsAdd (jsAdd (panelsOf fk) (inverterOf fk)) (installationOf fk) := by
  cases fk with
  | nan => rfl
  | num f =>
    simp only [totalInstallOf, panelsOf, inverterOf, installationOf, rawHardwareOf,
      jsMul, jsRoundN, jsAdd, moneyRound]
    have hcast : ((jsRound (f * costPerKw * (60/100)) : ℤ) : ℚ) +
        ((jsRound (f * costPerKw * (25/100)) : ℤ) : ℚ) +
        ((jsRound (f * costPerKw * (15/100)) : ℤ) : ℚ) =
        (((jsRound (f * costPerKw * (60/100)) + jsRound (f * costPerKw * (25/100)) +
          jsRound (f * costPerKw * (15/100)) : ℤ)) : ℚ) := by
      push_cast
      ring
    rw [hcast, jsRound_intCast]

lemma canonCostPerUnitChecked_eq (pf : ParsedFields) (fields : Option FieldsOverride) :
    canonCostPerUnitChecked pf fields = some (canonCostPerUnit pf fields) := by
  unfold canonCostPerUnitChecked canonCostPerUnit
  cases safeNum pf.costPerUnit with
  | some q => rfl
  | none =>
    cases canonTotalCost pf fields with
    | none => rfl
    | some t =>
      cases canonUnits pf fields with
      | none => rfl
      | some u =>
        by_cases h : t ≠ 0 ∧ u ≠ 0
        · simp [h, divOpt, h.2]
        · simp [h]

lemma checkedTail_eq (uv cv : ℚ) (loc : Option String) (a0 : List String)
    (p : JsNumber × List String) (huv : uv ≠ 0) :
    checkedTail uv cv loc a0 p = some (plainTail uv cv loc a0 p) := by
  have h1000 : JsNumber.num (1000 : ℚ) ≠ JsNumber.num 0 := by
    intro h
    rw [JsNumber.num.injEq] at h
    norm_num at h
  have huvN : JsNumber.num uv ≠ JsNumber.num 0 := by
    intro h
    rw [JsNumber.num.injEq] at h
    exact huv h
  unfold checkedTail plainTail
  by_cases hs : jsLt (JsNumber.num 0)
      (savingsOf (jsMul p.1 (toNumber (pickProductionForLocation loc))) uv cv) = true
  · obtain ⟨s, hS, hspos⟩ := jsLt_zero_num hs
    have h12 : jsMul (savingsOf (jsMul p.1 (toNumber (pickProductionForLocation loc))) uv cv)
        (JsNumber.num 12) ≠ JsNumber.num 0 := by
      rw [hS]
      intro h
      have hz : s * 12 = 0 := by simpa [jsMul] using h
      rcases mul_eq_zero.mp hz with hz | hz
      · exact hspos.ne' hz
      · norm_num at hz
    simp [hs, jsDivOpt, h12, huvN, h1000]
  · have hs' : jsLt (JsNumber.num 0)
        (savingsOf (jsMul p.1 (toNumber (pickProductionForLocation loc))) uv cv) = false := by
      simpa using hs
    simp [hs', jsDivOpt, huvN, h1000]

lemma calcChecked_compute (uv cv : ℚ) (loc : Option String) (budget : JVal)
    (a0 : List String) (huv : uv ≠ 0) (hcv : cv ≠ 0) :
    calcRecommendationChecked (some uv) (some cv) loc budget a0 =
      some (calcRecommendation (some uv) (some cv) loc budget a0) := by
  have h0 : ¬(uv = 0 ∨ cv = 0) := by tauto
  have hprod := toNumber_pick_ne_zero loc
  have hcpk : costPerKw ≠ 0 := by norm_num [costPerKw]
  simp only [calcRecommendationChecked, calcRecommendation, computeBranch, h0,
    if_false, ite_false, jsDivOpt, hprod, Option.some_bind]
  cases hb : budgetNumOf budget with
  | none =>
    simp only [finalKwCalc, budgetNotes, hb, Option.some_bind]
    exact checkedTail_eq uv cv loc a0 _ huv
  | some b =>
    simp only [finalKwCalc, budgetNotes, hb, divOpt, hcpk, ite_false,
      Option.map_some', Option.some_bind]
    by_cases hlt : jsLt (JsNumber.num (b / costPerKw))
        (jsDiv (JsNumber.num uv) (toNumber (pickProductionForLocation loc))) = true
    · simp only [hlt, if_true, ite_true]
      exact checkedTail_eq uv cv loc a0 _ huv
    · have hlt' : jsLt (JsNumber.num (b / costPerKw))
          (jsDiv (JsNumber.num uv) (toNumber (pickProductionForLocation loc))) = false := by
        simpa using hlt
      simp only [hlt', Bool.false_eq_true, if_false, ite_false]
      exact checkedTail_eq uv cv loc a0 _ huv

lemma calcRecommendationChecked_eq (u cpu : Option ℚ) (loc : Option String)
    (budget : JVal) (a0 : List String) :
    calcRecommendationChecked u cpu loc budget a0 =
      some (calcRecommendation u cpu loc budget a0) := by
  cases u with
  | none => cases cpu <;> rfl
  | some uv =>
    cases cpu with
    | none => rfl
    | some cv =>
      by_cases h0 : uv = 0 ∨ cv = 0
      · simp only [calcRecommendationChecked, calcRecommendation, h0, if_true, ite_true]
      · push_neg at h0
        exact calcChecked_compute uv cv loc budget a0 h0.1 h0.2

lemma normalizeAndComputeChecked_eq (pf : ParsedFields) (fields : Option FieldsOverride)
    (budget : JVal) (city : Option String) (a0 : List String) :
    normalizeAndComputeChecked pf fields budget city a0 =
      some (normalizeAndCompute pf fields budget city a0) := by
  unfold normalizeAndComputeChecked normalizeAndCompute
  rw [canonCostPerUnitChecked_eq]
  simp only [Option.some_bind]
  exact calcRecommendationChecked_eq _ _ _ _ _

lemma calc_compute (uv cv : ℚ) (loc : Option String) (budget : JVal) (a0 : List String)
    (hu : uv ≠ 0) (hc : cv ≠ 0) :
    calcRecommendation (some uv) (some cv) loc budget a0 =
      computeBranch uv cv loc budget a0 := by
  simp [calcRecommendation, hu, hc]

/-! ## Claims -/

/-- Claim C1: for every canonical input with `unitsKWh > 0` and `costPerUnit > 0`,
if `budget` is supplied as a positive number and `budget / costPerKw < requiredKw`
(JS `<`, with `requiredKw = unitsKWh / prodPerKwPerMonth`), then
`finalKw = max(0.5, budget / costPerKw)` and the budget-insufficiency note is
appended; in every other case (budget absent, zero, negative, non-numeric, or
the comparison false — which covers `budget / costPerKw ≥ requiredKw`, and a
`NaN` `requiredKw` from a prototype-chain location, where JS `<` is false)
`finalKw = requiredKw` and no such note is appended. -/
theorem C1_budget_sizing (u cpu : ℚ) (loc : Option String) (budget : JVal)
    (hu : 0 < u) (hc : 0 < cpu) :
    (∀ b : ℚ, budget = JVal.num b → 0 < b →
        jsLt (JsNumber.num (b / costPerKw))
          (jsDiv (JsNumber.num u) (toNumber (pickProductionForLocation loc))) = true →
        finalKwCalc (jsDiv (JsNumber.num u) (toNumber (pickProductionForLocation loc))) budget
          = JsNumber.num (max (1/2) (b / costPerKw)) ∧
        (calcRecommendation (some u) (some cpu) loc budget []).recommendation.suggestedSystemKw
          = some (jsToFixedN 2 (JsNumber.num (max (1/2) (b / costPerKw)))) ∧
        budgetInsufficientNote ∈
          (calcRecommendation (some u) (some cpu) loc budget []).recommendation.notes) ∧
    ((budgetNumOf budget = none ∨
        ∃ b : ℚ, budget = JVal.num b ∧ 0 < b ∧
          jsLt (JsNumber.num (b / costPerKw))
            (jsDiv (JsNumber.num u) (toNumber (pickProductionForLocation loc))) = false) →
      finalKwCalc (jsDiv (JsNumber.num u) (toNumber (pickProductionForLocation loc))) budget
        = jsDiv (JsNumber.num u) (toNumber (pickProductionForLocation loc)) ∧
      budgetInsufficientNote ∉
        (calcRecommendation (some u) (some cpu) loc budget []).recommendation.notes) := by
  have hcalc := calc_compute u cpu loc budget [] hu.ne' hc.ne'
  constructor
  · rintro b rfl hb hlt
    have hbn : budgetNumOf (JVal.num b) = some b := by simp [budgetNumOf, hb]
    refine ⟨?_, ?_, ?_⟩
    · simp [finalKwCalc, hbn, hlt]
    · rw [hcalc]
      show some (jsToFixedN 2 (finalKwCalc
        (jsDiv (JsNumber.num u) (toNumber (pickProductionForLocation loc))) (JVal.num b))) = _
      simp [finalKwCalc, hbn, hlt]
    · rw [hcalc]
      show budgetInsufficientNote ∈ budgetNotes
        (jsDiv (JsNumber.num u) (toNumber (pickProductionForLocation loc))) (JVal.num b)
      simp [budgetNotes, hbn, hlt]
  · intro h
    rw [hcalc]
    show finalKwCalc _ _ = _ ∧
      budgetInsufficientNote ∉ budgetNotes
        (jsDiv (JsNumber.num u) (toNumber (pickProductionForLocation loc))) budget
    rcases h with hb | ⟨b, rfl, hb, hge⟩
    · simp [finalKwCalc, budgetNotes, hb]
    · have hbn : budgetNumOf (JVal.num b) = some b := by simp [budgetNumOf, hb]
      simp [finalKwCalc, budgetNotes, hbn, hge]

/-- Witness for C1 at `unitsKWh = 600`, `costPerUnit = 30`, no location,
`budget = 300000`: `maxKwByBudget = 300000/180000 < requiredKw = 4`, so the
suggested size is capped and the note is emitted. -/
theorem C1_budget_sizing_witness :
    finalKwCalc (jsDiv (JsNumber.num 600) (toNumber (pickProductionForLocation none)))
      (JVal.num 300000) = JsNumber.num (max (1/2) (300000 / costPerKw)) ∧
    (calcRecommendation (some 600) (some 30) none
        (JVal.num 300000) []).recommendation.suggestedSystemKw =
      some (jsToFixedN 2 (JsNumber.num (max (1/2) (300000 / costPerKw)))) ∧
    budgetInsufficientNote ∈
      (calcRecommendation (some 600) (some 30) none
        (JVal.num 300000) []).recommendation.notes :=
  (C1_budget_sizing 600 30 none (JVal.num 300000) (by norm_num) (by norm_num)).1
    300000 rfl (by norm_num)
    (by norm_num [jsLt, jsDiv, toNumber, pickProductionForLocation, prodDefault, costPerKw])

/-- Claim C2, as stated, is false on the code: the guard is JS truthiness
(`unitsKWh && costPerUnit`), so a negative `unitsKWh` (≤ 0) still runs the
full computation and yields non-null recommendation fields. -/
theorem C2_degraded_counterexample :
    (-1 : ℚ) ≤ 0 ∧
    (calcRecommendation (some (-1)) (some 30) none
      JVal.nonNum []).recommendation.suggestedSystemKw ≠ none := by
  constructor
  · norm_num
  · rw [calc_compute (-1) 30 none JVal.nonNum [] (by norm_num) (by norm_num)]
    simp [computeBranch, plainTail]

/-- Claim C2 amended: the degraded path is taken exactly when `unitsKWh` is
null or zero, or `costPerUnit` is null or zero (JS falsiness, not `≤ 0`);
then all recommendation fields are null, the explanatory assumption is
appended, and no exception is raised. -/
theorem C2_degraded_amended (u cpu : Option ℚ) (loc : Option String) (budget : JVal)
    (a0 : List String)
    (h : u = none ∨ u = some 0 ∨ cpu = none ∨ cpu = some 0) :
    (calcRecommendation u cpu loc budget a0).recommendation.suggestedSystemKw = none ∧
    (calcRecommendation u cpu loc budget a0).recommendation.estMonthlySavings = none ∧
    (calcRecommendation u cpu loc budget a0).recommendation.approxInstallCost = none ∧
    (calcRecommendation u cpu loc budget a0).recommendation.paybackYears = none ∧
    (calcRecommendation u cpu loc budget a0).recommendation.co2ReductionTonsPerYear = none ∧
    missingNote ∈ (calcRecommendation u cpu loc budget a0).assumptions := by
  have hres : calcRecommendation u cpu loc budget a0 = degradedResult a0 := by
    rcases h with h | h | h | h
    · subst h; cases cpu <;> rfl
    · subst h
      cases cpu with
      | none => rfl
      | some cv => simp [calcRecommendation]
    · subst h; cases u <;> rfl
    · subst h
      cases u with
      | none => rfl
      | some uv => simp [calcRecommendation]
  rw [hres]
  simp [degradedResult, degradedRecommendation]

/-- Witness for C2 amended at `unitsKWh = null`, `costPerUnit = 30`. -/
theorem C2_degraded_amended_witness :
    (calcRecommendation none (some 30) none JVal.nonNum []).recommendation.suggestedSystemKw
      = none ∧
    (calcRecommendation none (some 30) none JVal.nonNum []).recommendation.estMonthlySavings
      = none ∧
    (calcRecommendation none (some 30) none JVal.nonNum []).recommendation.approxInstallCost
      = none ∧
    (calcRecommendation none (some 30) none JVal.nonNum []).recommendation.paybackYears
      = none ∧
    (calcRecommendation none (some 30) none
      JVal.nonNum []).recommendation.co2ReductionTonsPerYear = none ∧
    missingNote ∈ (calcRecommendation none (some 30) none JVal.nonNum []).assumptions :=
  C2_degraded_amended none (some 30) none JVal.nonNum [] (Or.inl rfl)

/-- Claim C3: the worked example — `unitsKWh = 600`, `costPerUnit = 30`,
`location = "karachi"` (so `prodPerKw = 160`), `costPerKw = 180000`, no
budget — yields `suggestedSystemKw = 3.75`, `estMonthlyProductionKwh = 600`,
`estMonthlySavings = 18000`, `approxInstallCost = 675000` with breakdown
`405000 / 168750 / 101250`, `paybackYears = 3.13`,
`co2ReductionTonsPerYear = 3.24`, `percentOffset = 100.0`. -/
theorem C3_worked_example :
    normalizeAndCompute
        { unitsKWh := JVal.num 600, totalCost := JVal.nonNum,
          costPerUnit := JVal.num 30, location := some "karachi" }
        none JVal.nonNum none [] =
      { recommendation :=
          { suggestedSystemKw := some (JsNumber.num 3.75)
            estMonthlyProductionKwh := some (JsNumber.num 600)
            estMonthlySavings := some (JsNumber.num 18000)
            approxInstallCost := some (JsNumber.num 675000)
            costBreakdown := some
              { panels := JsNumber.num 405000
                inverterAndBalance := JsNumber.num 168750
                installation := JsNumber.num 101250 }
            paybackYears := some (JsNumber.num 3.13)
            co2ReductionTonsPerYear := some (JsNumber.num 3.24)
            percentOffset := some (JsNumber.num 100)
            notes := [] }
        assumptions := [] } := by
  have hpick : pickProductionForLocation (some "karachi") = ProdValue.num 160 := by decide
  show calcRecommendation (some 600) (some 30) (some "karachi") JVal.nonNum [] = _
  rw [calc_compute 600 30 (some "karachi") JVal.nonNum [] (by norm_num) (by norm_num)]
  norm_num [computeBranch, plainTail, finalKwCalc, budgetNotes, budgetNumOf, hpick,
    toNumber, jsDiv, jsMul, jsMin, jsAdd, jsLt, jsRoundN, jsToFixedN,
    savingsOf, totalInstallOf, panelsOf, inverterOf, installationOf, rawHardwareOf,
    moneyRound, jsRound, toFixed, emissionKgPerKwh, costPerKw]

/-- Claim C6, as stated, is false on the code: the canonical `costPerUnit`
never falls back to the caller-supplied override (`fields.costPerUnit` is not
consulted), and a present-but-zero `totalCost` yields null rather than the
quotient `0 / unitsKWh`. -/
theorem C6_costPerUnit_counterexample :
    (safeNum (JVal.num 50) = some 50 ∧
     canonCostPerUnit
       { unitsKWh := JVal.num 100, totalCost := JVal.nonNum,
         costPerUnit := JVal.nan, location := none }
       (some { unitsKWh := JVal.nonNum, totalCost := JVal.nonNum,
               costPerUnit := JVal.num 50 }) = none) ∧
    canonCostPerUnit
      { unitsKWh := JVal.num 100, totalCost := JVal.num 0,
        costPerUnit := JVal.nonNum, location := none } none = none := by
  refine ⟨⟨rfl, rfl⟩, ?_⟩
  simp [canonCostPerUnit, canonTotalCost, canonUnits, safeNum]

/-- Claim C6 amended: the canonical `costPerUnit` is the parsed/LLM value when
it is a valid number; otherwise it is derived as `totalCost / unitsKWh` exactly
when the canonical `totalCost` and `unitsKWh` are both non-null and nonzero;
otherwise it is null (the caller-supplied override for `costPerUnit` is never
consulted), and no exception is raised. -/
theorem C6_costPerUnit_amended (pf : ParsedFields) (fields : Option FieldsOverride) :
    (∀ q : ℚ, safeNum pf.costPerUnit = some q → canonCostPerUnit pf fields = some q) ∧
    (safeNum pf.costPerUnit = none →
      ((∃ t uq : ℚ, canonTotalCost pf fields = some t ∧ canonUnits pf fields = some uq ∧
          t ≠ 0 ∧ uq ≠ 0 ∧ canonCostPerUnit pf fields = some (t / uq)) ∨
       (canonCostPerUnit pf fields = none ∧
         (canonTotalCost pf fields = none ∨ canonTotalCost pf fields = some 0 ∨
          canonUnits pf fields = none ∨ canonUnits pf fields = some 0)))) := by
  constructor
  · intro q hq
    unfold canonCostPerUnit
    rw [hq]
  · intro hq
    cases ht : canonTotalCost pf fields with
    | none =>
      refine Or.inr ⟨?_, Or.inl rfl⟩
      unfold canonCostPerUnit
      rw [hq, ht]
    | some t =>
      cases hu : canonUnits pf fields with
      | none =>
        refine Or.inr ⟨?_, Or.inr (Or.inr (Or.inl rfl))⟩
        unfold canonCostPerUnit
        rw [hq, ht, hu]
      | some uq =>
        have hcp : canonCostPerUnit pf fields =
            if t ≠ 0 ∧ uq ≠ 0 then some (t / uq) else none := by
          unfold canonCostPerUnit
          rw [hq, ht, hu]
        by_cases h : t ≠ 0 ∧ uq ≠ 0
        · exact Or.inl ⟨t, uq, rfl, rfl, h.1, h.2, by rw [hcp, if_pos h]⟩
        · refine Or.inr ⟨by rw [hcp, if_neg h], ?_⟩
          rcases not_and_or.mp h with h1 | h1
          · push_neg at h1
            exact Or.inr (Or.inl (by rw [← h1]))
          · push_neg at h1
            exact Or.inr (Or.inr (Or.inr (by rw [← h1])))

/-- Witness for C6 amended: a valid parsed `costPerUnit` is taken as is. -/
theorem C6_costPerUnit_amended_witness :
    canonCostPerUnit
      { unitsKWh := JVal.nonNum, totalCost := JVal.nonNum,
        costPerUnit := JVal.num 7, location := none } none = some 7 :=
  (C6_costPerUnit_amended
    { unitsKWh := JVal.nonNum, totalCost := JVal.nonNum,
      costPerUnit := JVal.num 7, location := none } none).1 7 rfl

/-- Claim C7, as stated, is false on the code: a negative parsed `costPerUnit`
is accepted as is (the canonical value can be negative), and a
present-but-zero `totalCost` with positive `unitsKWh` yields null rather than
the quotient. -/
theorem C7_invariant_counterexample :
    canonCostPerUnit
        { unitsKWh := JVal.nonNum, totalCost := JVal.nonNum,
          costPerUnit := JVal.num (-5), location := none } none = some (-5) ∧
    ((-5 : ℚ) < 0) ∧
    canonCostPerUnit
        { unitsKWh := JVal.num 100, totalCost := JVal.num 0,
          costPerUnit := JVal.nonNum, location := none } none = none := by
  refine ⟨rfl, by norm_num, ?_⟩
  simp [canonCostPerUnit, canonTotalCost, canonUnits, safeNum]

/-- Claim C7 amended: the canonical `costPerUnit` can be negative; whenever
`totalCost` and `unitsKWh` are both present with `unitsKWh > 0` and
`totalCost ≠ 0`, and no valid `costPerUnit` was parsed, the canonical
`costPerUnit` equals `totalCost / unitsKWh`. -/
theorem C7_invariant_amended (pf : ParsedFields) (fields : Option FieldsOverride) (t uq : ℚ)
    (ht : canonTotalCost pf fields = some t) (hu : canonUnits pf fields = some uq)
    (htne : t ≠ 0) (huq : 0 < uq) (hno : safeNum pf.costPerUnit = none) :
    canonCostPerUnit pf fields = some (t / uq) := by
  unfold canonCostPerUnit
  rw [hno, ht, hu]
  exact if_pos ⟨htne, huq.ne'⟩

/-- Witness for C7 amended at `totalCost = 100`, `unitsKWh = 10`. -/
theorem C7_invariant_amended_witness :
    canonCostPerUnit
      { unitsKWh := JVal.num 10, totalCost := JVal.num 100,
        costPerUnit := JVal.nonNum, location := none } none = some ((100 : ℚ) / 10) :=
  C7_invariant_amended
    { unitsKWh := JVal.num 10, totalCost := JVal.num 100,
      costPerUnit := JVal.nonNum, location := none } none 100 10 rfl rfl
    (by norm_num) (by norm_num) rfl

/-- Claim C4, as stated, is false on the code: at the prototype-chain
location "Constructor" (lowercased key `"constructor"` resolves to the
inherited `Object` constructor) `estMonthlySavings` is `NaN`, and `NaN` is
not `≤ round(unitsKWh * costPerUnit) = 18000` (JS `<=` on `NaN` is false). -/
theorem C4_savings_cap_counterexample :
    (calcRecommendation (some 600) (some 30) (some "Constructor")
      JVal.nonNum []).recommendation.estMonthlySavings = some JsNumber.nan ∧
    jsLe JsNumber.nan (JsNumber.num 18000) = false := by decide

/-- Claim C4 amended: for every input with `unitsKWh > 0` and
`costPerUnit > 0`, `estMonthlySavings = round(min(estMonthlyProduction,
unitsKWh) * costPerUnit)` (with `NaN` propagating); whenever the location
resolves to a numeric yield, the savings are an integer number of currency
units and at most `round(unitsKWh * costPerUnit)` — overproduction beyond
consumption never increases savings. -/
theorem C4_savings_cap_amended (u cpu : ℚ) (loc : Option String) (budget : JVal)
    (a0 : List String) (hu : 0 < u) (hc : 0 < cpu) :
    (calcRecommendation (some u) (some cpu) loc budget a0).recommendation.estMonthlySavings =
      some (savingsOf (jsMul (finalKwCalc (jsDiv (JsNumber.num u)
          (toNumber (pickProductionForLocation loc))) budget)
        (toNumber (pickProductionForLocation loc))) u cpu) ∧
    (∀ q : ℚ, pickProductionForLocation loc = ProdValue.num q →
      ∃ s : ℤ,
        (calcRecommendation (some u) (some cpu) loc budget a0).recommendation.estMonthlySavings
          = some (JsNumber.num (s : ℚ)) ∧ s ≤ jsRound (u * cpu)) := by
  have hcalc := calc_compute u cpu loc budget a0 hu.ne' hc.ne'
  have hfield : (calcRecommendation (some u) (some cpu)
      loc budget a0).recommendation.estMonthlySavings =
      some (savingsOf (jsMul (finalKwCalc (jsDiv (JsNumber.num u)
          (toNumber (pickProductionForLocation loc))) budget)
        (toNumber (pickProductionForLocation loc))) u cpu) := by
    rw [hcalc]; rfl
  refine ⟨hfield, ?_⟩
  intro q hq
  have hq0 : 0 < q := pickProduction_num_pos loc q hq
  obtain ⟨fk, hfk⟩ := finalKwCalc_num (u / q) budget
  refine ⟨jsRound (min (fk * q) u * cpu), ?_, ?_⟩
  · rw [hfield, hq]
    simp only [toNumber]
    rw [show jsDiv (JsNumber.num u) (JsNumber.num q) = JsNumber.num (u / q) from
      by simp [jsDiv, hq0.ne'], hfk]
    simp [savingsOf, jsMul, jsMin, jsRoundN, moneyRound]
  · exact jsRound_mono (mul_le_mul_of_nonneg_right (min_le_right _ _) hc.le)

/-- Witness for C4 amended at `unitsKWh = 600`, `costPerUnit = 30`, no budget,
no location (numeric default yield 150). -/
theorem C4_savings_cap_amended_witness :
    (calcRecommendation (some 600) (some 30) none
        JVal.nonNum []).recommendation.estMonthlySavings =
      some (savingsOf (jsMul (finalKwCalc (jsDiv (JsNumber.num 600)
          (toNumber (pickProductionForLocation none))) JVal.nonNum)
        (toNumber (pickProductionForLocation none))) 600 30) ∧
    ∃ s : ℤ,
      (calcRecommendation (some 600) (some 30) none
          JVal.nonNum []).recommendation.estMonthlySavings = some (JsNumber.num (s : ℚ)) ∧
      s ≤ jsRound ((600 : ℚ) * 30) := by
  have h := C4_savings_cap_amended 600 30 none JVal.nonNum [] (by norm_num) (by norm_num)
  exact ⟨h.1, h.2 150 rfl⟩

/-- Claim C5, as stated, is false on the code: at the prototype-chain
location "Constructor" every breakdown component and the total are `NaN`,
which is not a whole-currency rounding and does not satisfy the 3-unit
bound (JS `<=` on `NaN` is false). -/
theorem C5_cost_breakdown_counterexample :
    (calcRecommendation (some 600) (some 30) (some "Constructor")
      JVal.nonNum []).recommendation.costBreakdown =
      some { panels := JsNumber.nan, inverterAndBalance := JsNumber.nan,
             installation := JsNumber.nan } ∧
    (calcRecommendation (some 600) (some 30) (some "Constructor")
      JVal.nonNum []).recommendation.approxInstallCost = some JsNumber.nan ∧
    jsLe (jsAbs (jsSub JsNumber.nan (jsMul JsNumber.nan (JsNumber.num costPerKw))))
      (JsNumber.num 3) = false := by decide

/-- Claim C5 amended: for every computed recommendation, each breakdown
component is `finalKw * costPerKw` times its weight (0.60 / 0.25 / 0.15)
rounded, and the total install cost equals the sum of the three rounded
components (`NaN` propagating); whenever the location resolves to a numeric
yield, the components are integers and their sum is within 3 units of
`finalKw * costPerKw`. -/
theorem C5_cost_breakdown_amended (u cpu : ℚ) (loc : Option String) (budget : JVal)
    (a0 : List String) (hu : 0 < u) (hc : 0 < cpu) :
    (calcRecommendation (some u) (some cpu) loc budget a0).recommendation.costBreakdown =
      some
        { panels := panelsOf (finalKwCalc (jsDiv (JsNumber.num u)
            (toNumber (pickProductionForLocation loc))) budget)
          inverterAndBalance := inverterOf (finalKwCalc (jsDiv (JsNumber.num u)
            (toNumber (pickProductionForLocation loc))) budget)
          installation := installationOf (finalKwCalc (jsDiv (JsNumber.num u)
            (toNumber (pickProductionForLocation loc))) budget) } ∧
    (calcRecommendation (some u) (some cpu) loc budget a0).recommendation.approxInstallCost =
      some (jsAdd (jsAdd
        (panelsOf (finalKwCalc (jsDiv (JsNumber.num u)
          (toNumber (pickProductionForLocation loc))) budget))
        (inverterOf (finalKwCalc (jsDiv (JsNumber.num u)
          (toNumber (pickProductionForLocation loc))) budget)))
        (installationOf (finalKwCalc (jsDiv (JsNumber.num u)
          (toNumber (pickProductionForLocation loc))) budget))) ∧
    (∀ q : ℚ, pickProductionForLocation loc = ProdValue.num q →
      ∃ (fk : ℚ) (p i inst : ℤ),
        finalKwCalc (jsDiv (JsNumber.num u) (toNumber (pickProductionForLocation loc))) budget
          = JsNumber.num fk ∧
        p = jsRound (fk * costPerKw * (60/100)) ∧
        i = jsRound (fk * costPerKw * (25/100)) ∧
        inst = jsRound (fk * costPerKw * (15/100)) ∧
        (calcRecommendation (some u) (some cpu) loc budget a0).recommendation.costBreakdown =
          some { panels := JsNumber.num (p : ℚ), inverterAndBalance := JsNumber.num (i : ℚ),
                 installation := JsNumber.num (inst : ℚ) } ∧
        (calcRecommendation (some u) (some cpu) loc budget a0).recommendation.approxInstallCost
          = some (JsNumber.num ((p + i + inst : ℤ) : ℚ)) ∧
        |((p + i + inst : ℤ) : ℚ) - fk * costPerKw| ≤ 3) := by
  have hcalc := calc_compute u cpu loc budget a0 hu.ne' hc.ne'
  refine ⟨by rw [hcalc]; rfl, ?_, ?_⟩
  · rw [hcalc]
    show some (totalInstallOf _) = _
    rw [totalInstall_eq_sum]
  · intro q hq
    have hq0 : 0 < q := pickProduction_num_pos loc q hq
    obtain ⟨fk, hfk⟩ := finalKwCalc_num (u / q) budget
    have hfkF : finalKwCalc (jsDiv (JsNumber.num u)
        (toNumber (pickProductionForLocation loc))) budget = JsNumber.num fk := by
      rw [hq]
      simp only [toNumber]
      rw [show jsDiv (JsNumber.num u) (JsNumber.num q) = JsNumber.num (u / q) from
        by simp [jsDiv, hq0.ne']]
      exact hfk
    refine ⟨fk, jsRound (fk * costPerKw * (60/100)), jsRound (fk * costPerKw * (25/100)),
      jsRound (fk * costPerKw * (15/100)), hfkF, rfl, rfl, rfl, ?_, ?_, ?_⟩
    · rw [hcalc]
      simp only [computeBranch, plainTail]
      rw [hfkF]
      simp [panelsOf, inverterOf, installationOf, rawHardwareOf, jsMul, jsRoundN, moneyRound]
    · rw [hcalc]
      simp only [computeBranch, plainTail]
      rw [hfkF, totalInstall_eq_sum]
      simp only [panelsOf, inverterOf, installationOf, rawHardwareOf, jsMul, jsRoundN,
        jsAdd, moneyRound]
      congr 1
      push_cast
      ring_nf
    · have e1 := jsRound_le (fk * costPerKw * (60/100))
      have f1 := lt_jsRound (fk * costPerKw * (60/100))
      have e2 := jsRound_le (fk * costPerKw * (25/100))
      have f2 := lt_jsRound (fk * costPerKw * (25/100))
      have e3 := jsRound_le (fk * costPerKw * (15/100))
      have f3 := lt_jsRound (fk * costPerKw * (15/100))
      rw [abs_le]
      push_cast
      constructor <;> linarith

/-- Witness for C5 amended at `unitsKWh = 600`, `costPerUnit = 30`, no
budget, no location (numeric default yield 150). -/
theorem C5_cost_breakdown_amended_witness :
    (calcRecommendation (some 600) (some 30) none
        JVal.nonNum []).recommendation.costBreakdown =
      some
        { panels := panelsOf (finalKwCalc (jsDiv (JsNumber.num 600)
            (toNumber (pickProductionForLocation none))) JVal.nonNum)
          inverterAndBalance := inverterOf (finalKwCalc (jsDiv (JsNumber.num 600)
            (toNumber (pickProductionForLocation none))) JVal.nonNum)
          installation := installationOf (finalKwCalc (jsDiv (JsNumber.num 600)
            (toNumber (pickProductionForLocation none))) JVal.nonNum) } ∧
    (calcRecommendation (some 600) (some 30) none
        JVal.nonNum []).recommendation.approxInstallCost =
      some (jsAdd (jsAdd
        (panelsOf (finalKwCalc (jsDiv (JsNumber.num 600)
          (toNumber (pickProductionForLocation none))) JVal.nonNum))
        (inverterOf (finalKwCalc (jsDiv (JsNumber.num 600)
          (toNumber (pickProductionForLocation none))) JVal.nonNum)))
        (installationOf (finalKwCalc (jsDiv (JsNumber.num 600)
          (toNumber (pickProductionForLocation none))) JVal.nonNum))) ∧
    (∃ (fk : ℚ) (p i inst : ℤ),
        finalKwCalc (jsDiv (JsNumber.num 600)
          (toNumber (pickProductionForLocation none))) JVal.nonNum = JsNumber.num fk ∧
        p = jsRound (fk * costPerKw * (60/100)) ∧
        i = jsRound (fk * costPerKw * (25/100)) ∧
        inst = jsRound (fk * costPerKw * (15/100)) ∧
        (calcRecommendation (some 600) (some 30) none
            JVal.nonNum []).recommendation.costBreakdown =
          some { panels := JsNumber.num (p : ℚ), inverterAndBalance := JsNumber.num (i : ℚ),
                 installation := JsNumber.num (inst : ℚ) } ∧
        (calcRecommendation (some 600) (some 30) none
            JVal.nonNum []).recommendation.approxInstallCost
          = some (JsNumber.num ((p + i + inst : ℤ) : ℚ)) ∧
        |((p + i + inst : ℤ) : ℚ) - fk * costPerKw| ≤ 3) := by
  have h := C5_cost_breakdown_amended 600 30 none JVal.nonNum [] (by norm_num) (by norm_num)
  exact ⟨h.1, h.2.1, h.2.2 150 rfl⟩

/-- Claim C8, as stated, is false on the code: the bracket read consults the
prototype chain, so "Constructor" (and "__proto__"), whose lowercased forms
are not own keys of the table, resolve to truthy inherited
`Object.prototype` members instead of the default entry. -/
theorem C8_location_lookup_counterexample :
    prodLookup (jsToLower "Constructor") = none ∧
    pickProductionForLocation (some "Constructor") = ProdValue.protoObject ∧
    pickProductionForLocation (some "__proto__") = ProdValue.protoObject ∧
    ProdValue.protoObject ≠ ProdValue.num prodDefault := by decide

/-- Claim C8 amended: location resolution is case-insensitive ("Karachi",
"karachi" and "KARACHI" resolve to the same yield; more generally, two
nonempty strings with the same lowercasing resolve identically), a null or
empty location resolves to the default entry, and any location whose
lowercased form is not a key of the table resolves to the default entry —
except the prototype-chain keys `"constructor"` and `"__proto__"`, which
resolve to a truthy inherited `Object.prototype` member. -/
theorem C8_location_lookup_amended :
    (pickProductionForLocation (some "Karachi") = pickProductionForLocation (some "karachi") ∧
     pickProductionForLocation (some "KARACHI") = pickProductionForLocation (some "karachi")) ∧
    (∀ s t : String, s ≠ "" → t ≠ "" → jsToLower s = jsToLower t →
      pickProductionForLocation (some s) = pickProductionForLocation (some t)) ∧
    (∀ s : String, prodLookup (jsToLower s) = none →
      jsToLower s ≠ "constructor" → jsToLower s ≠ "__proto__" →
      pickProductionForLocation (some s) = ProdValue.num prodDefault) ∧
    (∀ s : String, jsToLower s = "constructor" ∨ jsToLower s = "__proto__" →
      pickProductionForLocation (some s) = ProdValue.protoObject) ∧
    pickProductionForLocation none = ProdValue.num prodDefault ∧
    pickProductionForLocation (some "") = ProdValue.num prodDefault := by
  refine ⟨⟨by decide, by decide⟩, ?_, ?_, ?_, rfl, rfl⟩
  · intro s t hs ht h
    simp [pickProductionForLocation, hs, ht, h]
  · intro s h h1 h2
    by_cases hs : s = ""
    · simp [pickProductionForLocation, hs]
    · simp [pickProductionForLocation, hs, prodEntryToValue, h, h1, h2]
  · intro s h
    rcases h with h | h
    · have hs : s ≠ "" := by
        rintro rfl
        exact absurd h (by decide)
      simp [pickProductionForLocation, hs, h, prodLookup, prodEntryToValue]
    · have hs : s ≠ "" := by
        rintro rfl
        exact absurd h (by decide)
      simp [pickProductionForLocation, hs, h, prodLookup, prodEntryToValue]

/-- Witness for C8 amended: "Lahore"/"LAHORE" resolve identically, unknown
"Quetta" resolves to the default, and "__PROTO__" hits the prototype chain. -/
theorem C8_location_lookup_amended_witness :
    pickProductionForLocation (some "Lahore") = pickProductionForLocation (some "LAHORE") ∧
    pickProductionForLocation (some "Quetta") = ProdValue.num prodDefault ∧
    pickProductionForLocation (some "__PROTO__") = ProdValue.protoObject := by
  refine ⟨?_, ?_, ?_⟩
  · exact C8_location_lookup_amended.2.1 "Lahore" "LAHORE" (by decide) (by decide) (by decide)
  · exact C8_location_lookup_amended.2.2.1 "Quetta" (by decide) (by decide) (by decide)
  · exact C8_location_lookup_amended.2.2.2.1 "__PROTO__" (Or.inr (by decide))

/-- Claim C9, as stated, is false on the code: the lookup at the
prototype-chain key `"constructor"` resolves to a truthy non-number
(`Object`), not a positive yield, and the downstream outputs become `NaN`.
No exception is raised, but the "every lookup resolves to a positive yield"
clause fails. -/
theorem C9_totality_counterexample :
    pickProductionForLocation (some "constructor") = ProdValue.protoObject ∧
    toNumber (pickProductionForLocation (some "constructor")) = JsNumber.nan ∧
    (calcRecommendation (some 600) (some 30) (some "constructor")
      JVal.nonNum []).recommendation.suggestedSystemKw = some JsNumber.nan := by decide

/-- Claim C9 amended: the pipeline is total and never throws — every
division in the whole pipeline, checked for a zero divisor, succeeds on all
inputs — and every location lookup resolves either to a positive numeric
yield or (exactly for locations lowercasing to `"constructor"` or
`"__proto__"`) to a truthy inherited prototype object that `NaN`-poisons the
numeric outputs without raising. -/
theorem C9_totality_amended :
    (∀ loc : Option String,
      (∃ q : ℚ, pickProductionForLocation loc = ProdValue.num q ∧ 0 < q) ∨
      (∃ s : String, loc = some s ∧
        (jsToLower s = "constructor" ∨ jsToLower s = "__proto__") ∧
        pickProductionForLocation loc = ProdValue.protoObject)) ∧
    (∀ (pf : ParsedFields) (fields : Option FieldsOverride) (budget : JVal)
        (city : Option String) (a0 : List String),
      normalizeAndComputeChecked pf fields budget city a0 =
        some (normalizeAndCompute pf fields budget city a0)) := by
  constructor
  · intro loc
    have hd : (0 : ℚ) < prodDefault := by norm_num [prodDefault]
    cases loc with
    | none => exact Or.inl ⟨prodDefault, rfl, hd⟩
    | some s =>
      by_cases hs : s = ""
      · exact Or.inl ⟨prodDefault, by simp [pickProductionForLocation, hs], hd⟩
      · cases hL : prodLookup (jsToLower s) with
        | some v =>
          have hv := prodLookup_pos _ _ hL
          by_cases hv0 : v = 0
          · exact Or.inl ⟨prodDefault,
              by simp [pickProductionForLocation, hs, hL, prodEntryToValue, hv0], hd⟩
          · exact Or.inl ⟨v,
              by simp [pickProductionForLocation, hs, hL, prodEntryToValue, hv0], hv⟩
        | none =>
          by_cases hp : jsToLower s = "constructor" ∨ jsToLower s = "__proto__"
          · exact Or.inr ⟨s, rfl, hp,
              by simp [pickProductionForLocation, hs, hL, prodEntryToValue, hp]⟩
          · exact Or.inl ⟨prodDefault,
              by simp [pickProductionForLocation, hs, hL, prodEntryToValue, hp], hd⟩
  · exact normalizeAndComputeChecked_eq

/-- Claim C10: on every successful computation, `suggestedSystemKw` is
`finalKw` rounded to 2 decimal places and `estMonthlyProductionKwh` is
`finalKw * prodPerKwPerMonth` rounded to 1 decimal place, while savings,
payback, CO2 and percent offset are computed from the unrounded `finalKw`
and production values (all with JS `NaN` propagation). -/
theorem C10_output_rounding (u cpu : ℚ) (loc : Option String) (budget : JVal)
    (a0 : List String) (hu : 0 < u) (hc : 0 < cpu) :
    (calcRecommendation (some u) (some cpu) loc budget a0).recommendation.suggestedSystemKw =
      some (jsToFixedN 2 (finalKwCalc (jsDiv (JsNumber.num u)
        (toNumber (pickProductionForLocation loc))) budget)) ∧
    (calcRecommendation (some u) (some cpu) loc budget a0).recommendation.estMonthlyProductionKwh =
      some (jsToFixedN 1 (jsMul (finalKwCalc (jsDiv (JsNumber.num u)
        (toNumber (pickProductionForLocation loc))) budget)
        (toNumber (pickProductionForLocation loc)))) ∧
    (calcRecommendation (some u) (some cpu) loc budget a0).recommendation.estMonthlySavings =
      some (savingsOf (jsMul (finalKwCalc (jsDiv (JsNumber.num u)
        (toNumber (pickProductionForLocation loc))) budget)
        (toNumber (pickProductionForLocation loc))) u cpu) ∧
    (calcRecommendation (some u) (some cpu) loc budget a0).recommendation.paybackYears =
      (if jsLt (JsNumber.num 0)
          (savingsOf (jsMul (finalKwCalc (jsDiv (JsNumber.num u)
            (toNumber (pickProductionForLocation loc))) budget)
            (toNumber (pickProductionForLocation loc))) u cpu) then
        some (jsToFixedN 2 (jsDiv
          (totalInstallOf (finalKwCalc (jsDiv (JsNumber.num u)
            (toNumber (pickProductionForLocation loc))) budget))
          (jsMul (savingsOf (jsMul (finalKwCalc (jsDiv (JsNumber.num u)
            (toNumber (pickProductionForLocation loc))) budget)
            (toNumber (pickProductionForLocation loc))) u cpu) (JsNumber.num 12))))
      else none) ∧
    (calcRecommendation (some u) (some cpu) loc budget a0).recommendation.co2ReductionTonsPerYear =
      some (jsToFixedN 3 (jsDiv (jsMul (jsMul
        (jsMul (finalKwCalc (jsDiv (JsNumber.num u)
          (toNumber (pickProductionForLocation loc))) budget)
          (toNumber (pickProductionForLocation loc)))
        (JsNumber.num 12)) (JsNumber.num emissionKgPerKwh)) (JsNumber.num 1000))) ∧
    (calcRecommendation (some u) (some cpu) loc budget a0).recommendation.percentOffset =
      some (jsToFixedN 1 (jsMul (jsDiv
        (jsMul (finalKwCalc (jsDiv (JsNumber.num u)
          (toNumber (pickProductionForLocation loc))) budget)
          (toNumber (pickProductionForLocation loc)))
        (JsNumber.num u)) (JsNumber.num 100))) := by
  rw [calc_compute u cpu loc budget a0 hu.ne' hc.ne']
  exact ⟨rfl, rfl, rfl, rfl, rfl, rfl⟩

/-- Witness for C10 at `unitsKWh = 600`, `costPerUnit = 30`, no budget. -/
theorem C10_output_rounding_witness :
    (calcRecommendation (some 600) (some 30) none
        JVal.nonNum []).recommendation.suggestedSystemKw =
      some (jsToFixedN 2 (finalKwCalc (jsDiv (JsNumber.num 600)
        (toNumber (pickProductionForLocation none))) JVal.nonNum)) ∧
    (calcRecommendation (some 600) (some 30) none
        JVal.nonNum []).recommendation.estMonthlyProductionKwh =
      some (jsToFixedN 1 (jsMul (finalKwCalc (jsDiv (JsNumber.num 600)
        (toNumber (pickProductionForLocation none))) JVal.nonNum)
        (toNumber (pickProductionForLocation none)))) ∧
    (calcRecommendation (some 600) (some 30) none
        JVal.nonNum []).recommendation.estMonthlySavings =
      some (savingsOf (jsMul (finalKwCalc (jsDiv (JsNumber.num 600)
        (toNumber (pickProductionForLocation none))) JVal.nonNum)
        (toNumber (pickProductionForLocation none))) 600 30) ∧
    (calcRecommendation (some 600) (some 30) none
        JVal.nonNum []).recommendation.paybackYears =
      (if jsLt (JsNumber.num 0)
          (savingsOf (jsMul (finalKwCalc (jsDiv (JsNumber.num 600)
            (toNumber (pickProductionForLocation none))) JVal.nonNum)
            (toNumber (pickProductionForLocation none))) 600 30) then
        some (jsToFixedN 2 (jsDiv
          (totalInstallOf (finalKwCalc (jsDiv (JsNumber.num 600)
            (toNumber (pickProductionForLocation none))) JVal.nonNum))
          (jsMul (savingsOf (jsMul (finalKwCalc (jsDiv (JsNumber.num 600)
            (toNumber (pickProductionForLocation none))) JVal.nonNum)
            (toNumber (pickProductionForLocation none))) 600 30) (JsNumber.num 12))))
      else none) ∧
    (calcRecommendation (some 600) (some 30) none
        JVal.nonNum []).recommendation.co2ReductionTonsPerYear =
      some (jsToFixedN 3 (jsDiv (jsMul (jsMul
        (jsMul (finalKwCalc (jsDiv (JsNumber.num 600)
          (toNumber (pickProductionForLocation none))) JVal.nonNum)
          (toNumber (pickProductionForLocation none)))
        (JsNumber.num 12)) (JsNumber.num emissionKgPerKwh)) (JsNumber.num 1000))) ∧
    (calcRecommendation (some 600) (some 30) none
        JVal.nonNum []).recommendation.percentOffset =
      some (jsToFixedN 1 (jsMul (jsDiv
        (jsMul (finalKwCalc (jsDiv (JsNumber.num 600)
          (toNumber (pickProductionForLocation none))) JVal.nonNum)
          (toNumber (pickProductionForLocation none)))
        (JsNumber.num 600)) (JsNumber.num 100))) :=
  C10_output_rounding 600 30 none JVal.nonNum [] (by norm_num) (by norm_num)

end SolarScan
